import Mathlib

/-!
Verification of the ProseGenerator frontend conversation core.

This file gives a shallow embedding, in Lean 4, of the intake state machine,
parameter store, generation orchestrator and presentation controller of the
ProseGenerator React application (the full `App` component), and proves or
refutes the frozen specification claims about it.

Modelling conventions:
* A JavaScript number-or-undefined value is modelled as `Option Nat`
  (`none` = `undefined`).  The `STEPS` object of the source has no
  `CHARACTERS` key, so the JS property access `STEPS.CHARACTERS` evaluates to
  `undefined`; property access is modelled as association-list lookup, which
  returns `none` for the missing key, exactly mirroring JS semantics.
* A React event handler is modelled as a pure function from the component
  state (one record holding every `useState` cell) to the next state.  Reads
  of state variables inside a handler use the snapshot taken at handler entry
  (the closure value), while functional `setX(prev => ...)` updates apply to
  the evolving state, exactly as React schedules them within one handler call.
* The transient contents of the chat input box (`userInput`) is passed to the
  submit handler as an argument instead of being stored in the state record;
  no claim mentions it.
* The `fetch` call of `generateStory` is modelled by an explicit outcome
  parameter: the promise either rejects (network error), or resolves with an
  HTTP status and a body whose JSON parse either fails or yields an object
  with an optional `prose_output` field (`none` models a missing key, i.e.
  the JS value `undefined`).  Note that `fetch` resolves for *every* HTTP
  status; only network failures reject.
-/

/-- One character record as stored in `data.characters`:
`{ name, description, color }`. -/
structure Character where
  name : String
  description : String
  color : String
deriving DecidableEq, Repr

/-- The `data` state cell: `{ beats, characters, setting, genre, style }`. -/
structure StoryData where
  beats : List String
  characters : List Character
  setting : String
  genre : String
  style : String
deriving DecidableEq, Repr

/-- Message sender tag: `'bot'` or `'user'`. -/
inductive Sender where
  | bot
  | user
deriving DecidableEq, Repr

/-- One chat message `{ sender, text }`. -/
structure Message where
  sender : Sender
  text : String
deriving DecidableEq, Repr

/-- The parsed JSON body of a generation response.  `prose_output := none`
models a JSON object without a `prose_output` key (JS `undefined`). -/
structure JsonBody where
  prose_output : Option String
deriving DecidableEq, Repr

/-- Result of `res.json()` on a resolved response: `failed` when the promise
rejects (body is not valid JSON), `parsed b` when it yields the object `b`. -/
inductive BodyParse where
  | failed
  | parsed (body : JsonBody)
deriving DecidableEq, Repr

/-- Outcome of the `fetch("http://localhost:8000/generate-prose", ...)` call
followed by `res.json()`:
* `reject` — the fetch promise rejects (network error);
* `response status body` — fetch resolves with the given HTTP status and the
  given `res.json()` result.
`fetch` resolves for every HTTP status, including non-2xx ones. -/
inductive FetchOutcome where
  | reject
  | response (status : Nat) (body : BodyParse)
deriving DecidableEq, Repr

/-- The component state: one field per `useState` cell of `App`
(the transient `userInput` is passed as a handler argument instead). -/
structure AppState where
  step : Option Nat
  data : StoryData
  currentCharName : String
  editingSetting : Bool
  editingGenre : Bool
  editingStyle : Bool
  tempSetting : String
  tempGenre : String
  tempStyle : String
  showBeats : Bool
  showCharacters : Bool
  showOtherParams : Bool
  newBeat : String
  showNewBeatInput : Bool
  newCharacterName : String
  newCharacterDesc : String
  showNewCharacterInput : Bool
  messages : List Message
  currentPrompt : String
  generatedStory : Option String
  temperature : ℚ
  desiredLength : Nat
  layoutMode : String
  loading : Bool
deriving DecidableEq, Repr

/-- The key/value pairs of the `STEPS` object literal, in source order.
Note the source object has no `CHARACTERS` entry. -/
def stepsObject : List (String × Nat) :=
  [("BEAT", 0), ("BEAT_CONFIRM", 1), ("CHARACTER_NAME", 2),
   ("CHARACTER_DESCRIPTION", 3), ("SETTING", 4), ("GENRE", 5), ("STYLE", 6),
   ("CONFIRM", 7), ("GENERATE", 8), ("EXTEND", 9)]

/-- JS property access `STEPS.key`: lookup in the object, `undefined`
(`none`) for a missing key — in particular `STEPS "CHARACTERS" = none`. -/
def STEPS (key : String) : Option Nat :=
  stepsObject.lookup key

/-- The `characterColors` palette. -/
def characterColors : List String :=
  ["#f44336", "#4caf50", "#2196f3", "#ff9800", "#9c27b0"]

/-- Source expression `characterColors[n % characterColors.length]` — the index is always in
range, so the default is never used. -/
def colorFor (n : Nat) : String :=
  characterColors.getD (n % characterColors.length) ""

/-- JS `String.prototype.trim()`: strip leading and trailing whitespace.
Implemented structurally on the character list (the library `String.trim`
is defined by well-founded position recursion, which the kernel cannot
evaluate; this structural version has the same semantics). -/
def jsTrim (s : String) : String :=
  String.mk ((s.data.dropWhile Char.isWhitespace).reverse.dropWhile Char.isWhitespace).reverse

/-- JS `String.prototype.toLowerCase()` on the ASCII range, implemented
structurally on the character list.  Every comparison in the source compares
against an ASCII literal. -/
def jsToLower (s : String) : String :=
  String.mk (s.data.map Char.toLower)

/-- The initial welcome message (`initialMessage`). -/
def initialMessage : String :=
  "Welcome! I\x27m ProseGenerator – an AI-powered creative writing assistant built with React, Material‑UI, FastAPI, OpenAI GPT‑4, and Pinecone.\nI use advanced NLP, Retrieval-Augmented Generation (RAG) techniques, and a pre-built vector database (Pinecone) to transform your story beats into a narrative.\n(For your information, data ingestion (embedding BookSum) has already been completed and stored in Pinecone.)\nLet\x27s begin! Please enter your first Story Beat."

/-- Build a user message. -/
def userMsg (t : String) : Message := { sender := .user, text := t }

/-- Build a bot message. -/
def botMsg (t : String) : Message := { sender := .bot, text := t }

/-- The initial component state, from the `useState` initialisers. -/
def initialState : AppState :=
  { step := STEPS "BEAT"
    data := { beats := [], characters := [], setting := "", genre := "", style := "" }
    currentCharName := ""
    editingSetting := false
    editingGenre := false
    editingStyle := false
    tempSetting := ""
    tempGenre := ""
    tempStyle := ""
    showBeats := true
    showCharacters := true
    showOtherParams := true
    newBeat := ""
    showNewBeatInput := false
    newCharacterName := ""
    newCharacterDesc := ""
    showNewCharacterInput := false
    messages := [botMsg initialMessage]
    currentPrompt := "Type your message here..."
    generatedStory := some ""
    temperature := 7/10
    desiredLength := 1000
    layoutMode := "both"
    loading := false }

/-- JS `Array.prototype.filter` with an index-aware callback, as used by
`filter((_, i) => i !== index)`: keep the elements whose position satisfies
the predicate, counting positions from `n`. -/
def filterWithIndex (p : Nat → Bool) : Nat → List α → List α
  | _, [] => []
  | n, a :: l =>
      if p n then a :: filterWithIndex p (n + 1) l else filterWithIndex p (n + 1) l

/-- Source `removeCharacter(index)`: positional filter on `data.characters`. -/
def removeCharacter (index : Nat) (st : AppState) : AppState :=
  { st with data := { st.data with
      characters := filterWithIndex (fun i => i != index) 0 st.data.characters } }

/-- Source `removeBeat(index)`: positional filter on `data.beats`. -/
def removeBeat (index : Nat) (st : AppState) : AppState :=
  { st with data := { st.data with
      beats := filterWithIndex (fun i => i != index) 0 st.data.beats } }

/-- Source `saveEdit(param)`: commit the staged temporary value of one of the three
scalar parameters and leave its editing mode.  An unknown `param` string
matches no branch and is a no-op, as in the source's if/else chain. -/
def saveEdit (param : String) (st : AppState) : AppState :=
  if param = "setting" then
    { st with data := { st.data with setting := st.tempSetting }, editingSetting := false }
  else if param = "genre" then
    { st with data := { st.data with genre := st.tempGenre }, editingGenre := false }
  else if param = "style" then
    { st with data := { st.data with style := st.tempStyle }, editingStyle := false }
  else st

/-- Source `handleAddBeat()`: append the trimmed staged beat if non-empty, then clear
the staging input; otherwise do nothing. -/
def handleAddBeat (st : AppState) : AppState :=
  if jsTrim st.newBeat != "" then
    { st with
        data := { st.data with beats := st.data.beats ++ [jsTrim st.newBeat] }
        newBeat := ""
        showNewBeatInput := false }
  else st

/-- Source `handleAddCharacter()`: if both staged fields trim non-empty, append a
character coloured `characterColors[data.characters.length % palette]` and
clear the staging inputs; otherwise do nothing. -/
def handleAddCharacter (st : AppState) : AppState :=
  if jsTrim st.newCharacterName != "" && jsTrim st.newCharacterDesc != "" then
    { st with
        data := { st.data with characters := st.data.characters ++
          [{ name := jsTrim st.newCharacterName
             description := jsTrim st.newCharacterDesc
             color := colorFor st.data.characters.length }] }
        newCharacterName := ""
        newCharacterDesc := ""
        showNewCharacterInput := false }
  else st

/-- Source `startOver()`: reset the conversation.  Exactly the fields the source
function sets are overwritten; editor staging cells (temp values, show flags)
and `loading` are untouched by the source and hence preserved here. -/
def startOver (st : AppState) : AppState :=
  { st with
      step := STEPS "BEAT"
      data := { beats := [], characters := [], setting := "", genre := "", style := "" }
      currentCharName := ""
      generatedStory := some ""
      temperature := 7/10
      desiredLength := 1000
      layoutMode := "both"
      messages := [botMsg initialMessage]
      currentPrompt := "Type your message here..." }

/-- The bot message appended on the error path of `generateStory`. -/
def genErrorText : String :=
  "Error generating story. Please try again or type \x27start over\x27."

/-- The bot message appended on the success path of `generateStory`. -/
def genSuccessText : String :=
  "Story generated. To view the full story, use the toggle button. Type \x27start over\x27 to reset."

/-- Source `generateStory()`: sets `loading`, performs the fetch with the given
outcome, and applies the success or error effects.  The success path stores
`result.prose_output` (possibly `undefined`), appends the success message,
sets `step = STEPS.EXTEND` and `layoutMode = "both"`.  The catch path (fetch
rejection or `res.json()` rejection) appends the error message and clears the
prompt.  The HTTP `status` of a resolved response is never consulted — the
source has no `res.ok` check. -/
def generateStory (outcome : FetchOutcome) (st : AppState) : AppState :=
  let st1 := { st with loading := true }
  let st2 :=
    match outcome with
    | .reject =>
        { st1 with messages := st1.messages ++ [botMsg genErrorText], currentPrompt := "" }
    | .response _status .failed =>
        { st1 with messages := st1.messages ++ [botMsg genErrorText], currentPrompt := "" }
    | .response _status (.parsed body) =>
        { st1 with
            generatedStory := body.prose_output
            messages := st1.messages ++ [botMsg genSuccessText]
            currentPrompt := "Type your next input:"
            step := STEPS "EXTEND"
            layoutMode := "both" }
  { st2 with loading := false }

/-- The summary text built in the `STYLE` branch.  The source reads the
closure variable `data` (the handler-entry snapshot), so the summary is built
from the pre-update data, including the not-yet-updated `style`. -/
def summaryText (d : StoryData) : String :=
  "\nAll parameters saved.\nBeats:\n" ++
  String.intercalate "\n"
    (d.beats.enum.map (fun p => toString (p.1 + 1) ++ ". " ++ p.2)) ++
  "\nCharacters: " ++ String.intercalate ", " (d.characters.map (fun c => c.name)) ++
  "\nSetting: " ++ d.setting ++
  "\nGenre: " ++ d.genre ++
  "\nStyle: " ++ d.style ++
  "\n\nGenerate your story? (yes/no)\n      "

/-- Source `handleSend`: the submit handler.  `raw` is the contents of the input box.
Empty trimmed input returns early with no change.  Otherwise the user message
is appended, the global `"start over"` override is checked, and then the
if/else chain branches on the handler-entry snapshot of `step`.  The
`CONFIRM`/yes branch sets `step = STEPS.GENERATE` and then awaits
`generateStory` with the given fetch outcome. -/
def handleSend (outcome : FetchOutcome) (st : AppState) (raw : String) : AppState :=
  let input := jsTrim raw
  if input = "" then st
  else
    let st1 := { st with messages := st.messages ++ [userMsg input] }
    if jsToLower input = "start over" then startOver st1
    else if st.step = STEPS "BEAT" then
      { st1 with
          data := { st1.data with beats := st1.data.beats ++ [input] }
          messages := st1.messages ++
            [botMsg "Beat added. Do you want to add another beat? (yes/no)"]
          currentPrompt := "Do you want to add another beat? (yes/no)"
          step := STEPS "BEAT_CONFIRM" }
    else if st.step = STEPS "BEAT_CONFIRM" then
      if jsToLower input = "yes" then
        { st1 with
            messages := st1.messages ++ [botMsg "Please enter your next Story Beat:"]
            currentPrompt := "Enter your next Story Beat:"
            step := STEPS "BEAT" }
      else
        { st1 with
            messages := st1.messages ++
              [botMsg "Please enter the name of your first character:"]
            currentPrompt := "Enter character name:"
            step := STEPS "CHARACTER_NAME" }
    else if st.step = STEPS "CHARACTER_NAME" then
      { st1 with
          currentCharName := input
          messages := st1.messages ++ [botMsg "Now enter the character\x27s description:"]
          currentPrompt := "Enter character description:"
          step := STEPS "CHARACTER_DESCRIPTION" }
    else if st.step = STEPS "CHARACTER_DESCRIPTION" then
      { st1 with
          data := { st1.data with characters := st1.data.characters ++
            [{ name := st.currentCharName
               description := input
               color := colorFor st1.data.characters.length }] }
          messages := st1.messages ++
            [botMsg "Character saved. Do you want to add another character? (yes/no)"]
          currentPrompt := "Add another character? (yes/no)"
          step := STEPS "CHARACTERS" }
    else if st.step = STEPS "CHARACTERS" then
      if jsToLower input = "yes" then
        { st1 with
            messages := st1.messages ++
              [botMsg "Please enter the name of your next character:"]
            currentPrompt := "Enter character name:"
            step := STEPS "CHARACTER_NAME" }
      else
        { st1 with
            messages := st1.messages ++
              [botMsg "Characters saved. Now, please enter the Setting of your story:"]
            currentPrompt := "Enter the Setting:"
            step := STEPS "SETTING" }
    else if st.step = STEPS "SETTING" then
      { st1 with
          data := { st1.data with setting := input }
          messages := st1.messages ++ [botMsg "Setting saved. Now, please enter the Genre:"]
          currentPrompt := "Enter the Genre:"
          step := STEPS "GENRE" }
    else if st.step = STEPS "GENRE" then
      { st1 with
          data := { st1.data with genre := input }
          messages := st1.messages ++
            [botMsg "Genre saved. Now, please enter the desired Style:"]
          currentPrompt := "Enter the Style:"
          step := STEPS "STYLE" }
    else if st.step = STEPS "STYLE" then
      { st1 with
          data := { st1.data with style := input }
          messages := st1.messages ++ [botMsg (summaryText st.data)]
          currentPrompt := "Generate your story? (yes/no)"
          step := STEPS "CONFIRM" }
    else if st.step = STEPS "CONFIRM" then
      if jsToLower input = "yes" then
        generateStory outcome
          { st1 with
              messages := st1.messages ++ [botMsg "Generating your story... Please wait."]
              currentPrompt := "Generating..."
              step := STEPS "GENERATE" }
      else
        { st1 with
            messages := st1.messages ++
              [botMsg "Story generation cancelled. To try again, type \x27start over\x27."]
            currentPrompt := "" }
    else st1

/-- Source `cycleLayoutMode()`: toggle the layout; the branch is chosen by
`generatedStory === ""`. -/
def cycleLayoutMode (st : AppState) : AppState :=
  if st.generatedStory = some "" then
    { st with layoutMode := if st.layoutMode = "both" then "chatOnly" else "both" }
  else
    { st with layoutMode := if st.layoutMode = "both" then "storyOnly" else "both" }

/-- Source `beforeGeneration`: the render-time test `generatedStory === ""`. -/
def beforeGeneration (st : AppState) : Bool :=
  st.generatedStory == some ""

/-- The `(leftPanelWidth, rightPanelWidth)` grid columns derived at render
time from `beforeGeneration` and `layoutMode`. -/
def panelWidths (st : AppState) : Nat × Nat :=
  if beforeGeneration st then
    if st.layoutMode = "chatOnly" then (12, 0) else (9, 3)
  else
    if st.layoutMode = "storyOnly" then (0, 12) else (8, 4)

/-- What the right panel renders: the parameters editor when
`beforeGeneration`, the generated story otherwise. -/
inductive PanelContent where
  | parameters
  | story
deriving DecidableEq, Repr

/-- The right-panel content selected by the render's
`beforeGeneration ? ... : ...` conditional. -/
def rightPanelContent (st : AppState) : PanelContent :=
  if beforeGeneration st then .parameters else .story

/-- Feed a list of chat inputs to `handleSend` in order, all generation
attempts using the same fetch outcome. -/
def feedAll (outcome : FetchOutcome) (st : AppState) (inputs : List String) : AppState :=
  inputs.foldl (handleSend outcome) st

/-- One out-of-band editor action from the parameters panel.  An add action
stages the text in the corresponding input cells and clicks the confirm
button, exactly as the UI does. -/
inductive EditorOp where
  | addBeat (text : String)
  | removeBeat (index : Nat)
  | addCharacter (name description : String)
  | removeCharacter (index : Nat)
deriving DecidableEq, Repr

/-- Run one editor action on the component state. -/
def applyEditorOp : EditorOp → AppState → AppState
  | .addBeat t, st => handleAddBeat { st with newBeat := t }
  | .removeBeat i, st => removeBeat i st
  | .addCharacter n d, st =>
      handleAddCharacter { st with newCharacterName := n, newCharacterDesc := d }
  | .removeCharacter i, st => removeCharacter i st

/-- Run a sequence of editor actions. -/
def runEditorOps (ops : List EditorOp) (st : AppState) : AppState :=
  ops.foldl (fun s op => applyEditorOp op s) st

/-- The characters an editor action appends to the store (empty for removals
and for adds rejected by the emptiness guard). -/
def charsAddedBy (op : EditorOp) (st : AppState) : List Character :=
  (applyEditorOp op st).data.characters.drop st.data.characters.length

/-- The colours handed out by the successful character adds of a run,
in order of the adds. -/
def addedColors : List EditorOp → AppState → List String
  | [], _ => []
  | op :: ops, st =>
      (charsAddedBy op st).map Character.color ++ addedColors ops (applyEditorOp op st)

/-- The number of stored characters at the moment of each successful add of a
run, in order of the adds. -/
def addSizes : List EditorOp → AppState → List Nat
  | [], _ => []
  | op :: ops, st =>
      (charsAddedBy op st).map (fun _ => st.data.characters.length) ++
        addSizes ops (applyEditorOp op st)

/-- All characters appended by the successful adds of a run, in order. -/
def addedChars : List EditorOp → AppState → List Character
  | [], _ => []
  | op :: ops, st => charsAddedBy op st ++ addedChars ops (applyEditorOp op st)

/-- The beat-store evolution of an editor-action run, as a function of the
initial beat list alone: adds append the trimmed text when non-empty, and
removals erase the indexed position (`eraseIdx` is the identity out of
range); character actions leave the beats alone. -/
def beatsAfter : List EditorOp → List String → List String
  | [], l => l
  | .addBeat t :: ops, l =>
      beatsAfter ops (if jsTrim t != "" then l ++ [jsTrim t] else l)
  | .removeBeat i :: ops, l => beatsAfter ops (l.eraseIdx i)
  | .addCharacter _ _ :: ops, l => beatsAfter ops l
  | .removeCharacter _ :: ops, l => beatsAfter ops l

/-- The trimmed texts of the beat adds of an action list that pass the
non-empty guard, in order. -/
def beatsAddedTexts (ops : List EditorOp) : List String :=
  ops.filterMap fun op =>
    match op with
    | .addBeat t => if jsTrim t != "" then some (jsTrim t) else none
    | _ => none

/-- The eleven step values named by the specification, as the source denotes
them: the ten `STEPS` object entries plus `STEPS.CHARACTERS`, which the
source also uses even though the object literal has no such key (the JS
property access yields `undefined`, i.e. `none`). -/
def enumSteps : List (Option Nat) :=
  [STEPS "BEAT", STEPS "BEAT_CONFIRM", STEPS "CHARACTER_NAME",
   STEPS "CHARACTER_DESCRIPTION", STEPS "CHARACTERS", STEPS "SETTING",
   STEPS "GENRE", STEPS "STYLE", STEPS "CONFIRM", STEPS "GENERATE",
   STEPS "EXTEND"]

/-- Classify the fetch outcomes that take the `catch` path of
`generateStory`: a rejected fetch (network error) or a rejected
`res.json()` (malformed body).  A resolved response with a parseable JSON
body never takes the catch path, whatever its HTTP status — the source
never reads `res.ok` or `res.status`. -/
def isFailure : FetchOutcome → Bool
  | .reject => true
  | .response _ .failed => true
  | .response _ (.parsed _) => false

/-- A reachable session state sitting at the `CONFIRM` step, obtained by
running the linear intake conversation from the initial state. -/
def confirmState : AppState :=
  feedAll .reject initialState
    ["b1", "no", "Ana", "A pilot", "no", "A ship", "Sci-Fi", "Tense"]

/-- The cancellation bot message of the `CONFIRM`/else branch. -/
def cancelText : String :=
  "Story generation cancelled. To try again, type \x27start over\x27."

/-- The post-cancellation state: at the reachable `CONFIRM` state the user
answers `"no"`. -/
def cancelledState : AppState :=
  handleSend .reject confirmState "no"

/-- An editor-action sequence exhibiting the colour-assignment rule: add a
character, remove it, add another. -/
def colorProbeOps : List EditorOp :=
  [.addCharacter "A" "d", .removeCharacter 0, .addCharacter "B" "e"]

/-- A probe sequence of beat edits: a padded add, an in-range removal, a
rejected empty add, another add. -/
def beatProbeOps : List EditorOp :=
  [.addBeat " x ", .removeBeat 0, .addBeat "  ", .addBeat "y"]

/-! ### Helper lemmas -/

/-- A positional filter keeping the indices different from `i`, with counting
started at `n`, erases the element at position `i - n` (and is the identity
when the target index lies before the counter). -/
theorem filterWithIndex_ne (i : Nat) :
    ∀ (l : List α) (n : Nat),
      filterWithIndex (fun k => k != i) n l =
        if i < n then l else l.eraseIdx (i - n) := by
  intro l
  induction l with
  | nil => intro n; simp [filterWithIndex]
  | cons a l ih =>
    intro n
    by_cases hni : n = i
    · subst hni
      simp [filterWithIndex, ih (n + 1), Nat.lt_succ_self, Nat.lt_irrefl, Nat.sub_self]
    · have hb : (n != i) = true := by simpa using hni
      by_cases hlt : i < n
      · have : i < n + 1 := Nat.lt_succ_of_lt hlt
        simp [filterWithIndex, hb, ih (n + 1), hlt, this]
      · have hgt : n < i := Nat.lt_of_le_of_ne (Nat.le_of_not_lt hlt) hni
        have h1 : ¬ i < n + 1 := by omega
        have h2 : i - n = (i - (n + 1)) + 1 := by omega
        simp [filterWithIndex, hb, ih (n + 1), hlt, h1, h2, List.eraseIdx]

/-- The positional filter used by the removal handlers is `eraseIdx`. -/
theorem filterWithIndex_ne_zero (i : Nat) (l : List α) :
    filterWithIndex (fun k => k != i) 0 l = l.eraseIdx i := by
  simpa using filterWithIndex_ne i l 0

/-- Lemma form of `removeBeat` on the state level: erase the indexed beat. -/
theorem removeBeat_beats (i : Nat) (st : AppState) :
    (removeBeat i st).data.beats = st.data.beats.eraseIdx i := by
  simp [removeBeat, filterWithIndex_ne_zero]

/-- Lemma form of `removeCharacter` on the state level: erase the indexed character. -/
theorem removeCharacter_characters (i : Nat) (st : AppState) :
    (removeCharacter i st).data.characters = st.data.characters.eraseIdx i := by
  simp [removeCharacter, filterWithIndex_ne_zero]

/-! ### Claim theorems -/

/-- C8.  Every out-of-band editor operation — adding or removing a beat,
adding or removing a character, committing an edit of setting, genre or
style — leaves the conversation step and the message log exactly as they
were, for every session state. -/
theorem editor_ops_frame :
    ∀ (st : AppState),
      (∀ i, (removeBeat i st).step = st.step ∧ (removeBeat i st).messages = st.messages)
      ∧ (∀ i, (removeCharacter i st).step = st.step ∧
          (removeCharacter i st).messages = st.messages)
      ∧ ((handleAddBeat st).step = st.step ∧ (handleAddBeat st).messages = st.messages)
      ∧ ((handleAddCharacter st).step = st.step ∧
          (handleAddCharacter st).messages = st.messages)
      ∧ (∀ param, (saveEdit param st).step = st.step ∧
          (saveEdit param st).messages = st.messages) := by
  intro st
  refine ⟨fun i => ⟨rfl, rfl⟩, fun i => ⟨rfl, rfl⟩, ?_, ?_, ?_⟩
  · unfold handleAddBeat
    split <;> exact ⟨rfl, rfl⟩
  · unfold handleAddCharacter
    split <;> exact ⟨rfl, rfl⟩
  · intro param
    unfold saveEdit
    split
    · exact ⟨rfl, rfl⟩
    · split
      · exact ⟨rfl, rfl⟩
      · split <;> exact ⟨rfl, rfl⟩

/-- C2.  From every session state and whatever the fetch outcome would be,
submitting the text `"start over"` resets the session: the step returns to
`BEAT`, the story parameters are emptied, the message log is exactly the
single initial bot welcome message, and the stored prose is the empty
sentinel (no generation result). -/
theorem start_over_resets :
    ∀ (o : FetchOutcome) (st : AppState),
      (handleSend o st "start over").step = STEPS "BEAT"
      ∧ (handleSend o st "start over").data =
          { beats := [], characters := [], setting := "", genre := "", style := "" }
      ∧ (handleSend o st "start over").messages = [botMsg initialMessage]
      ∧ (handleSend o st "start over").generatedStory = some "" := by
  intro o st
  exact ⟨rfl, rfl, rfl, rfl⟩

/-- C10.  The presentation controller tests `generatedStory === ""` rather
than "a result was produced": after a successful generation call whose
`prose_output` is the empty string, the step is `EXTEND`, yet the render is
still in its before-generation mode — the right panel shows the parameters
editor, and the toggle cycles between "both" and "chat only" (never reaching
"story only"). -/
theorem empty_prose_stays_before_generation :
    ∀ (st : AppState) (status : Nat),
      (generateStory (.response status (.parsed { prose_output := some "" })) st).step
          = STEPS "EXTEND"
      ∧ beforeGeneration
          (generateStory (.response status (.parsed { prose_output := some "" })) st) = true
      ∧ rightPanelContent
          (generateStory (.response status (.parsed { prose_output := some "" })) st)
          = PanelContent.parameters
      ∧ panelWidths
          (generateStory (.response status (.parsed { prose_output := some "" })) st)
          = (9, 3)
      ∧ (cycleLayoutMode
          (generateStory (.response status (.parsed { prose_output := some "" })) st)).layoutMode
          = "chatOnly"
      ∧ (cycleLayoutMode (cycleLayoutMode
          (generateStory (.response status (.parsed { prose_output := some "" })) st))).layoutMode
          = "both" := by
  intro st status
  exact ⟨rfl, rfl, rfl, rfl, rfl, rfl⟩

/-- C9.  While the step is `GENERATE` or `EXTEND`, submitting any non-empty
trimmed input that is not the (case-insensitive) `"start over"` command
appends exactly one user message and changes nothing else: the resulting
state is the old state with only the message log extended — in particular
step, story parameters, stored prose, prompt string and the generation
controls are untouched, and no bot reply is appended. -/
theorem generate_extend_inert :
    ∀ (o : FetchOutcome) (st : AppState) (raw : String),
      (st.step = STEPS "GENERATE" ∨ st.step = STEPS "EXTEND") →
      jsTrim raw ≠ "" →
      jsToLower (jsTrim raw) ≠ "start over" →
      handleSend o st raw =
        { st with messages := st.messages ++ [userMsg (jsTrim raw)] } := by
  intro o st raw hstep hne hns
  unfold handleSend
  simp only [if_neg hne, if_neg hns]
  rcases hstep with h | h <;> rw [h] <;> rfl

/-- Witness for `generate_extend_inert` at the `EXTEND` step and the
input `"hello"`. -/
theorem generate_extend_inert_witness :
    handleSend .reject { initialState with step := STEPS "EXTEND" } "hello" =
      { initialState with
          step := STEPS "EXTEND"
          messages := initialState.messages ++ [userMsg "hello"] } := by
  have h := generate_extend_inert .reject { initialState with step := STEPS "EXTEND" }
    "hello" (Or.inr rfl) (by decide) (by decide)
  simpa using h

/-- Helper: `generateStory` either moves the step to `EXTEND` (success path) or
leaves it unchanged (catch path). -/
theorem generateStory_step (o : FetchOutcome) (st : AppState) :
    (generateStory o st).step = STEPS "EXTEND" ∨ (generateStory o st).step = st.step := by
  cases o with
  | reject => exact Or.inr rfl
  | response s b =>
    cases b with
    | failed => exact Or.inr rfl
    | parsed body => exact Or.inl rfl

/-- C1.  The conversation step always carries exactly one of the eleven
enumerated values `STEPS.BEAT … STEPS.EXTEND` (pairwise distinct, with
`STEPS.CHARACTERS` denoting the `undefined` value produced by accessing the
missing key): it does initially, and the submit handler — a total function
of the step, the input and the fetch outcome — preserves membership; in
particular the transition taken at `CHARACTER_DESCRIPTION` lands exactly on
`STEPS.CHARACTERS`. -/
theorem step_always_in_enum :
    initialState.step ∈ enumSteps
    ∧ enumSteps.Nodup
    ∧ (∀ (o : FetchOutcome) (st : AppState) (raw : String),
        st.step ∈ enumSteps → (handleSend o st raw).step ∈ enumSteps)
    ∧ (∀ (o : FetchOutcome) (st : AppState) (raw : String),
        st.step = STEPS "CHARACTER_DESCRIPTION" →
        jsTrim raw ≠ "" →
        jsToLower (jsTrim raw) ≠ "start over" →
        (handleSend o st raw).step = STEPS "CHARACTERS") := by
  refine ⟨by decide, by decide, ?_, ?_⟩
  · intro o st raw h
    unfold handleSend
    by_cases h0 : jsTrim raw = ""
    · simp only [if_pos h0]; exact h
    simp only [if_neg h0]
    by_cases h1 : jsToLower (jsTrim raw) = "start over"
    · simp only [if_pos h1]
      exact (by decide : STEPS "BEAT" ∈ enumSteps)
    simp only [if_neg h1]
    by_cases h2 : st.step = STEPS "BEAT"
    · simp only [if_pos h2]
      exact (by decide : STEPS "BEAT_CONFIRM" ∈ enumSteps)
    simp only [if_neg h2]
    by_cases h3 : st.step = STEPS "BEAT_CONFIRM"
    · simp only [if_pos h3]
      by_cases hy : jsToLower (jsTrim raw) = "yes"
      · simp only [if_pos hy]
        exact (by decide : STEPS "BEAT" ∈ enumSteps)
      · simp only [if_neg hy]
        exact (by decide : STEPS "CHARACTER_NAME" ∈ enumSteps)
    simp only [if_neg h3]
    by_cases h4 : st.step = STEPS "CHARACTER_NAME"
    · simp only [if_pos h4]
      exact (by decide : STEPS "CHARACTER_DESCRIPTION" ∈ enumSteps)
    simp only [if_neg h4]
    by_cases h5 : st.step = STEPS "CHARACTER_DESCRIPTION"
    · simp only [if_pos h5]
      exact (by decide : STEPS "CHARACTERS" ∈ enumSteps)
    simp only [if_neg h5]
    by_cases h6 : st.step = STEPS "CHARACTERS"
    · simp only [if_pos h6]
      by_cases hy : jsToLower (jsTrim raw) = "yes"
      · simp only [if_pos hy]
        exact (by decide : STEPS "CHARACTER_NAME" ∈ enumSteps)
      · simp only [if_neg hy]
        exact (by decide : STEPS "SETTING" ∈ enumSteps)
    simp only [if_neg h6]
    by_cases h7 : st.step = STEPS "SETTING"
    · simp only [if_pos h7]
      exact (by decide : STEPS "GENRE" ∈ enumSteps)
    simp only [if_neg h7]
    by_cases h8 : st.step = STEPS "GENRE"
    · simp only [if_pos h8]
      exact (by decide : STEPS "STYLE" ∈ enumSteps)
    simp only [if_neg h8]
    by_cases h9 : st.step = STEPS "STYLE"
    · simp only [if_pos h9]
      exact (by decide : STEPS "CONFIRM" ∈ enumSteps)
    simp only [if_neg h9]
    by_cases h10 : st.step = STEPS "CONFIRM"
    · simp only [if_pos h10]
      by_cases hy : jsToLower (jsTrim raw) = "yes"
      · simp only [if_pos hy]
        rcases generateStory_step o _ with hg | hg <;> rw [hg]
        · exact (by decide : STEPS "EXTEND" ∈ enumSteps)
        · exact (by decide : STEPS "GENERATE" ∈ enumSteps)
      · simp only [if_neg hy]
        exact h
    simp only [if_neg h10]
    exact h
  · intro o st raw h hne hns
    unfold handleSend
    simp only [if_neg hne, if_neg hns]
    rw [h]
    rfl

/-- Witness for `step_always_in_enum`: the closure clause at the initial
state with input `"hi"`, and the `CHARACTER_DESCRIPTION` clause at a state
sitting in that step. -/
theorem step_always_in_enum_witness :
    (handleSend .reject initialState "hi").step ∈ enumSteps
    ∧ (handleSend .reject
        { initialState with step := STEPS "CHARACTER_DESCRIPTION" } "A pilot").step
        = STEPS "CHARACTERS" := by
  exact ⟨step_always_in_enum.2.2.1 .reject initialState "hi" (by decide),
    step_always_in_enum.2.2.2 .reject
      { initialState with step := STEPS "CHARACTER_DESCRIPTION" } "A pilot"
      (by rfl) (by decide) (by decide)⟩

/-- C4, counterexample.  A generation call answered with HTTP status 500 and
a parseable JSON body (here a body without a `prose_output` key, as FastAPI
error bodies are) is NOT treated as a failure: from the reachable `CONFIRM`
state, submitting `"yes"` under that outcome runs the success path — the
step becomes `EXTEND` (not `GENERATE`), the "Story generated" message is
appended, no error message appears, and the stored prose becomes the JS
`undefined` value. -/
theorem non2xx_takes_success_path :
    confirmState.step = STEPS "CONFIRM"
    ∧ (handleSend (.response 500 (.parsed { prose_output := none })) confirmState "yes").step
        = STEPS "EXTEND"
    ∧ (handleSend (.response 500 (.parsed { prose_output := none })) confirmState "yes").step
        ≠ STEPS "GENERATE"
    ∧ (handleSend (.response 500 (.parsed { prose_output := none })) confirmState "yes").messages.getLast?
        = some (botMsg genSuccessText)
    ∧ botMsg genErrorText ∉
        (handleSend (.response 500 (.parsed { prose_output := none })) confirmState "yes").messages
    ∧ (handleSend (.response 500 (.parsed { prose_output := none })) confirmState "yes").generatedStory
        = none := by
  exact ⟨rfl, rfl, by decide, rfl, by decide, rfl⟩

/-- C4, amended.  For a generation call that genuinely fails — the fetch
promise rejects (network error) or the response body fails to parse
(malformed body) — the orchestrator appends the bot error message, clears
the prompt and the loading mode, leaves the step at `GENERATE`, and leaves
the stored prose untouched; non-2xx statuses with parseable bodies are not
failures (see the counterexample). -/
theorem generation_failure_handling :
    (∀ (o : FetchOutcome) (st : AppState), isFailure o = true →
        generateStory o st =
          { st with
              messages := st.messages ++ [botMsg genErrorText]
              currentPrompt := ""
              loading := false })
    ∧ (∀ (o : FetchOutcome) (st : AppState) (raw : String), isFailure o = true →
        st.step = STEPS "CONFIRM" →
        jsTrim raw ≠ "" →
        jsToLower (jsTrim raw) = "yes" →
        handleSend o st raw =
          { st with
              messages := st.messages ++
                [userMsg (jsTrim raw), botMsg "Generating your story... Please wait.",
                 botMsg genErrorText]
              currentPrompt := ""
              step := STEPS "GENERATE"
              loading := false }) := by
  constructor
  · intro o st hf
    cases o with
    | reject => rfl
    | response s b =>
      cases b with
      | failed => rfl
      | parsed body => simp [isFailure] at hf
  · intro o st raw hf hstep hne hyes
    have hns : jsToLower (jsTrim raw) ≠ "start over" := by rw [hyes]; decide
    cases o with
    | reject =>
      unfold handleSend generateStory
      simp only [if_neg hne, if_neg hns, hstep, hyes]
      simp +decide [List.append_assoc]
    | response s b =>
      cases b with
      | failed =>
        unfold handleSend generateStory
        simp only [if_neg hne, if_neg hns, hstep, hyes]
        simp +decide [List.append_assoc]
      | parsed body => simp [isFailure] at hf

/-- Witness for `generation_failure_handling`: a network failure at the
initial state, and a network failure of the generation triggered from the
reachable `CONFIRM` state. -/
theorem generation_failure_handling_witness :
    generateStory .reject initialState =
      { initialState with
          messages := initialState.messages ++ [botMsg genErrorText]
          currentPrompt := ""
          loading := false }
    ∧ (handleSend .reject confirmState "yes").step = STEPS "GENERATE" := by
  refine ⟨generation_failure_handling.1 .reject initialState rfl, ?_⟩
  rw [generation_failure_handling.2 .reject confirmState "yes" rfl rfl (by decide) (by decide)]

/-- C5, counterexample.  Cancellation at `CONFIRM` is not terminal: after
answering `"no"` at the reachable `CONFIRM` state (which does emit the
cancellation message), the step is still `CONFIRM`, and a subsequent
`"yes"` — with a succeeding generation call — moves the step to `EXTEND`
and stores the generated prose: a later input other than `"start over"`
did cause forward progression and did trigger a generation request. -/
theorem confirm_cancel_not_terminal :
    confirmState.step = STEPS "CONFIRM"
    ∧ cancelledState.messages.getLast? = some (botMsg cancelText)
    ∧ cancelledState.step = STEPS "CONFIRM"
    ∧ (handleSend (.response 200 (.parsed { prose_output := some "STORY" }))
        cancelledState "yes").step = STEPS "EXTEND"
    ∧ (handleSend (.response 200 (.parsed { prose_output := some "STORY" }))
        cancelledState "yes").generatedStory = some "STORY" := by
  exact ⟨rfl, rfl, rfl, rfl, rfl⟩

/-- C5, amended.  When the step is `CONFIRM` and the submitted input is
anything other than `"yes"` (case-insensitive, trimmed) and not the
`"start over"` command, the cancellation bot message is emitted and the
prompt cleared, but the step remains `CONFIRM` with the parameters and the
stored prose untouched — the state is not terminal: a subsequent `"yes"`
with a succeeding generation call still progresses to `EXTEND`. -/
theorem confirm_cancellation :
    (∀ (o : FetchOutcome) (st : AppState) (raw : String),
      st.step = STEPS "CONFIRM" →
      jsTrim raw ≠ "" →
      jsToLower (jsTrim raw) ≠ "start over" →
      jsToLower (jsTrim raw) ≠ "yes" →
      handleSend o st raw =
        { st with
            messages := st.messages ++ [userMsg (jsTrim raw), botMsg cancelText]
            currentPrompt := "" })
    ∧ (∀ (st : AppState) (body : JsonBody),
      st.step = STEPS "CONFIRM" →
      (handleSend (.response 200 (.parsed body)) st "yes").step = STEPS "EXTEND") := by
  constructor
  · intro o st raw hstep hne hns hny
    unfold handleSend
    simp only [if_neg hne, if_neg hns, hstep, if_neg hny]
    simp +decide [List.append_assoc, cancelText]
  · intro st body hstep
    unfold handleSend generateStory
    simp only [hstep]
    rfl

/-- Witness for `confirm_cancellation` at the reachable `CONFIRM` state with
the cancelling input `"no"`, then the resumed `"yes"`. -/
theorem confirm_cancellation_witness :
    handleSend .reject confirmState "no" =
      { confirmState with
          messages := confirmState.messages ++ [userMsg "no", botMsg cancelText]
          currentPrompt := "" }
    ∧ (handleSend (.response 200 (.parsed { prose_output := some "p" }))
        confirmState "yes").step = STEPS "EXTEND" := by
  exact ⟨confirm_cancellation.1 .reject confirmState "no" rfl (by decide) (by decide) (by decide),
    confirm_cancellation.2 confirmState { prose_output := some "p" } rfl⟩

/-- The `BEAT` transition in closed form: any non-empty, non-command input
is appended to the beats and the step moves to `BEAT_CONFIRM`. -/
theorem beat_step (o : FetchOutcome) (st : AppState) (raw : String)
    (hstep : st.step = STEPS "BEAT")
    (hne : jsTrim raw ≠ "")
    (hns : jsToLower (jsTrim raw) ≠ "start over") :
    handleSend o st raw =
      { st with
          data := { st.data with beats := st.data.beats ++ [jsTrim raw] }
          messages := st.messages ++
            [userMsg (jsTrim raw),
             botMsg "Beat added. Do you want to add another beat? (yes/no)"]
          currentPrompt := "Do you want to add another beat? (yes/no)"
          step := STEPS "BEAT_CONFIRM" } := by
  unfold handleSend
  simp only [if_neg hne, if_neg hns, hstep]
  simp +decide [List.append_assoc]

/-- The `BEAT_CONFIRM` transition for a non-`"yes"` answer: move on to
`CHARACTER_NAME`. -/
theorem beat_confirm_no (o : FetchOutcome) (st : AppState) (raw : String)
    (hstep : st.step = STEPS "BEAT_CONFIRM")
    (hne : jsTrim raw ≠ "")
    (hns : jsToLower (jsTrim raw) ≠ "start over")
    (hny : jsToLower (jsTrim raw) ≠ "yes") :
    handleSend o st raw =
      { st with
          messages := st.messages ++
            [userMsg (jsTrim raw), botMsg "Please enter the name of your first character:"]
          currentPrompt := "Enter character name:"
          step := STEPS "CHARACTER_NAME" } := by
  unfold handleSend
  simp only [if_neg hne, if_neg hns, hstep, if_neg hny]
  simp +decide [List.append_assoc]

/-- The `CHARACTER_NAME` transition: stage the candidate name and move to
`CHARACTER_DESCRIPTION`. -/
theorem character_name_step (o : FetchOutcome) (st : AppState) (raw : String)
    (hstep : st.step = STEPS "CHARACTER_NAME")
    (hne : jsTrim raw ≠ "")
    (hns : jsToLower (jsTrim raw) ≠ "start over") :
    handleSend o st raw =
      { st with
          currentCharName := jsTrim raw
          messages := st.messages ++
            [userMsg (jsTrim raw), botMsg "Now enter the character\x27s description:"]
          currentPrompt := "Enter character description:"
          step := STEPS "CHARACTER_DESCRIPTION" } := by
  unfold handleSend
  simp only [if_neg hne, if_neg hns, hstep]
  simp +decide [List.append_assoc]

/-- The `CHARACTER_DESCRIPTION` transition: append the staged character with
the palette colour indexed by the current character count, and move to
`STEPS.CHARACTERS`. -/
theorem character_description_step (o : FetchOutcome) (st : AppState) (raw : String)
    (hstep : st.step = STEPS "CHARACTER_DESCRIPTION")
    (hne : jsTrim raw ≠ "")
    (hns : jsToLower (jsTrim raw) ≠ "start over") :
    handleSend o st raw =
      { st with
          data := { st.data with characters := st.data.characters ++
            [{ name := st.currentCharName
               description := jsTrim raw
               color := colorFor st.data.characters.length }] }
          messages := st.messages ++
            [userMsg (jsTrim raw),
             botMsg "Character saved. Do you want to add another character? (yes/no)"]
          currentPrompt := "Add another character? (yes/no)"
          step := STEPS "CHARACTERS" } := by
  unfold handleSend
  simp only [if_neg hne, if_neg hns, hstep]
  simp +decide [List.append_assoc]

/-- The `STEPS.CHARACTERS` transition for a non-`"yes"` answer: move on to
`SETTING`. -/
theorem characters_no (o : FetchOutcome) (st : AppState) (raw : String)
    (hstep : st.step = STEPS "CHARACTERS")
    (hne : jsTrim raw ≠ "")
    (hns : jsToLower (jsTrim raw) ≠ "start over")
    (hny : jsToLower (jsTrim raw) ≠ "yes") :
    handleSend o st raw =
      { st with
          messages := st.messages ++
            [userMsg (jsTrim raw),
             botMsg "Characters saved. Now, please enter the Setting of your story:"]
          currentPrompt := "Enter the Setting:"
          step := STEPS "SETTING" } := by
  unfold handleSend
  simp only [if_neg hne, if_neg hns, hstep, if_neg hny]
  simp +decide [List.append_assoc]

/-- The `SETTING` transition: store the setting, move to `GENRE`. -/
theorem setting_step (o : FetchOutcome) (st : AppState) (raw : String)
    (hstep : st.step = STEPS "SETTING")
    (hne : jsTrim raw ≠ "")
    (hns : jsToLower (jsTrim raw) ≠ "start over") :
    handleSend o st raw =
      { st with
          data := { st.data with setting := jsTrim raw }
          messages := st.messages ++
            [userMsg (jsTrim raw), botMsg "Setting saved. Now, please enter the Genre:"]
          currentPrompt := "Enter the Genre:"
          step := STEPS "GENRE" } := by
  unfold handleSend
  simp only [if_neg hne, if_neg hns, hstep]
  simp +decide [List.append_assoc]

/-- The `GENRE` transition: store the genre, move to `STYLE`. -/
theorem genre_step (o : FetchOutcome) (st : AppState) (raw : String)
    (hstep : st.step = STEPS "GENRE")
    (hne : jsTrim raw ≠ "")
    (hns : jsToLower (jsTrim raw) ≠ "start over") :
    handleSend o st raw =
      { st with
          data := { st.data with genre := jsTrim raw }
          messages := st.messages ++
            [userMsg (jsTrim raw), botMsg "Genre saved. Now, please enter the desired Style:"]
          currentPrompt := "Enter the Style:"
          step := STEPS "STYLE" } := by
  unfold handleSend
  simp only [if_neg hne, if_neg hns, hstep]
  simp +decide [List.append_assoc]

/-- The `STYLE` transition: store the style, emit the summary (built from the
handler-entry snapshot of `data`, whose `style` is still the old value), and
move to `CONFIRM`. -/
theorem style_step (o : FetchOutcome) (st : AppState) (raw : String)
    (hstep : st.step = STEPS "STYLE")
    (hne : jsTrim raw ≠ "")
    (hns : jsToLower (jsTrim raw) ≠ "start over") :
    handleSend o st raw =
      { st with
          data := { st.data with style := jsTrim raw }
          messages := st.messages ++
            [userMsg (jsTrim raw), botMsg (summaryText st.data)]
          currentPrompt := "Generate your story? (yes/no)"
          step := STEPS "CONFIRM" } := by
  unfold handleSend
  simp only [if_neg hne, if_neg hns, hstep]
  simp +decide [List.append_assoc]

set_option maxHeartbeats 2000000 in
/-- C6.  From the initial state, after one non-empty first beat (not the
`"start over"` command), the input path `"no"` → `"Ana"` → `"A pilot"` →
`"no"` → `"A ship"` → `"Sci-Fi"` → `"Tense"` ends at step `CONFIRM` with
exactly the story parameters
`{beats: [the first beat], characters: [{Ana, A pilot, palette[0]}],
setting: "A ship", genre: "Sci-Fi", style: "Tense"}`. -/
theorem intake_happy_path :
    ∀ (o : FetchOutcome) (b : String),
      jsTrim b ≠ "" →
      jsToLower (jsTrim b) ≠ "start over" →
      (feedAll o initialState
          [b, "no", "Ana", "A pilot", "no", "A ship", "Sci-Fi", "Tense"]).step
        = STEPS "CONFIRM"
      ∧ (feedAll o initialState
          [b, "no", "Ana", "A pilot", "no", "A ship", "Sci-Fi", "Tense"]).data
        = { beats := [jsTrim b]
            characters := [{ name := "Ana", description := "A pilot", color := colorFor 0 }]
            setting := "A ship"
            genre := "Sci-Fi"
            style := "Tense" } := by
  intro o b hb1 hb2
  unfold feedAll
  simp only [List.foldl_cons, List.foldl_nil]
  have e1 := beat_step o initialState b rfl hb1 hb2
  have p1 : (handleSend o initialState b).step = STEPS "BEAT_CONFIRM" := by rw [e1]
  have d1 : (handleSend o initialState b).data = { beats := [jsTrim b], characters := [], setting := "", genre := "", style := "" } := by rw [e1]; rfl
  have e2 := beat_confirm_no o (handleSend o initialState b) "no" p1 (by decide) (by decide) (by decide)
  have p2 : (handleSend o (handleSend o initialState b) "no").step = STEPS "CHARACTER_NAME" := by rw [e2]
  have d2 : (handleSend o (handleSend o initialState b) "no").data = { beats := [jsTrim b], characters := [], setting := "", genre := "", style := "" } := by rw [e2]; exact d1
  have e3 := character_name_step o (handleSend o (handleSend o initialState b) "no") "Ana" p2 (by decide) (by decide)
  have p3 : (handleSend o (handleSend o (handleSend o initialState b) "no") "Ana").step = STEPS "CHARACTER_DESCRIPTION" := by rw [e3]
  have d3 : (handleSend o (handleSend o (handleSend o initialState b) "no") "Ana").data = { beats := [jsTrim b], characters := [], setting := "", genre := "", style := "" } := by rw [e3]; exact d2
  have c3 : (handleSend o (handleSend o (handleSend o initialState b) "no") "Ana").currentCharName = jsTrim "Ana" := by rw [e3]
  have e4 := character_description_step o (handleSend o (handleSend o (handleSend o initialState b) "no") "Ana") "A pilot" p3 (by decide) (by decide)
  have p4 : (handleSend o (handleSend o (handleSend o (handleSend o initialState b) "no") "Ana") "A pilot").step = STEPS "CHARACTERS" := by rw [e4]
  have d4 : (handleSend o (handleSend o (handleSend o (handleSend o initialState b) "no") "Ana") "A pilot").data = { beats := [jsTrim b], characters := [{ name := "Ana", description := "A pilot", color := colorFor 0 }], setting := "", genre := "", style := "" } := by rw [e4]; simp +decide [d3, c3]
  have e5 := characters_no o (handleSend o (handleSend o (handleSend o (handleSend o initialState b) "no") "Ana") "A pilot") "no" p4 (by decide) (by decide) (by decide)
  have p5 : (handleSend o (handleSend o (handleSend o (handleSend o (handleSend o initialState b) "no") "Ana") "A pilot") "no").step = STEPS "SETTING" := by rw [e5]
  have d5 : (handleSend o (handleSend o (handleSend o (handleSend o (handleSend o initialState b) "no") "Ana") "A pilot") "no").data = { beats := [jsTrim b], characters := [{ name := "Ana", description := "A pilot", color := colorFor 0 }], setting := "", genre := "", style := "" } := by rw [e5]; exact d4
  have e6 := setting_step o (handleSend o (handleSend o (handleSend o (handleSend o (handleSend o initialState b) "no") "Ana") "A pilot") "no") "A ship" p5 (by decide) (by decide)
  have p6 : (handleSend o (handleSend o (handleSend o (handleSend o (handleSend o (handleSend o initialState b) "no") "Ana") "A pilot") "no") "A ship").step = STEPS "GENRE" := by rw [e6]
  have d6 : (handleSend o (handleSend o (handleSend o (handleSend o (handleSend o (handleSend o initialState b) "no") "Ana") "A pilot") "no") "A ship").data = { beats := [jsTrim b], characters := [{ name := "Ana", description := "A pilot", color := colorFor 0 }], setting := "A ship", genre := "", style := "" } := by rw [e6]; simp +decide [d5]
  have e7 := genre_step o (handleSend o (handleSend o (handleSend o (handleSend o (handleSend o (handleSend o initialState b) "no") "Ana") "A pilot") "no") "A ship") "Sci-Fi" p6 (by decide) (by decide)
  have p7 : (handleSend o (handleSend o (handleSend o (handleSend o (handleSend o (handleSend o (handleSend o initialState b) "no") "Ana") "A pilot") "no") "A ship") "Sci-Fi").step = STEPS "STYLE" := by rw [e7]
  have d7 : (handleSend o (handleSend o (handleSend o (handleSend o (handleSend o (handleSend o (handleSend o initialState b) "no") "Ana") "A pilot") "no") "A ship") "Sci-Fi").data = { beats := [jsTrim b], characters := [{ name := "Ana", description := "A pilot", color := colorFor 0 }], setting := "A ship", genre := "Sci-Fi", style := "" } := by rw [e7]; simp +decide [d6]
  have e8 := style_step o (handleSend o (handleSend o (handleSend o (handleSend o (handleSend o (handleSend o (handleSend o initialState b) "no") "Ana") "A pilot") "no") "A ship") "Sci-Fi") "Tense" p7 (by decide) (by decide)
  have p8 : (handleSend o (handleSend o (handleSend o (handleSend o (handleSend o (handleSend o (handleSend o (handleSend o initialState b) "no") "Ana") "A pilot") "no") "A ship") "Sci-Fi") "Tense").step = STEPS "CONFIRM" := by rw [e8]
  have d8 : (handleSend o (handleSend o (handleSend o (handleSend o (handleSend o (handleSend o (handleSend o (handleSend o initialState b) "no") "Ana") "A pilot") "no") "A ship") "Sci-Fi") "Tense").data = { beats := [jsTrim b], characters := [{ name := "Ana", description := "A pilot", color := colorFor 0 }], setting := "A ship", genre := "Sci-Fi", style := "Tense" } := by rw [e8]; simp +decide [d7]
  exact ⟨p8, d8⟩

/-- Witness for `intake_happy_path` at the first beat
`"Once upon a time"`. -/
theorem intake_happy_path_witness :
    (feedAll .reject initialState
        ["Once upon a time", "no", "Ana", "A pilot", "no", "A ship", "Sci-Fi", "Tense"]).step
      = STEPS "CONFIRM"
    ∧ (feedAll .reject initialState
        ["Once upon a time", "no", "Ana", "A pilot", "no", "A ship", "Sci-Fi", "Tense"]).data
      = { beats := [jsTrim "Once upon a time"]
          characters := [{ name := "Ana", description := "A pilot", color := colorFor 0 }]
          setting := "A ship"
          genre := "Sci-Fi"
          style := "Tense" } :=
  intake_happy_path .reject "Once upon a time" (by decide) (by decide)

/-- An `addBeat` editor action leaves the character store unchanged. -/
theorem addBeat_chars (t : String) (st : AppState) :
    (applyEditorOp (.addBeat t) st).data.characters = st.data.characters := by
  by_cases h : (jsTrim t != "") = true
  · simp [applyEditorOp, handleAddBeat, h]
  · simp [applyEditorOp, handleAddBeat, h]

/-- An `addBeat` editor action appends the trimmed text when it is
non-empty and does nothing otherwise. -/
theorem addBeat_beats (t : String) (st : AppState) :
    (applyEditorOp (.addBeat t) st).data.beats =
      if jsTrim t != "" then st.data.beats ++ [jsTrim t] else st.data.beats := by
  by_cases h : (jsTrim t != "") = true
  · simp [applyEditorOp, handleAddBeat, h]
  · simp [applyEditorOp, handleAddBeat, h]

/-- An `addCharacter` editor action appends, when both trimmed fields are
non-empty, a character coloured by the current character count; otherwise it
does nothing. -/
theorem addCharacter_chars (n d : String) (st : AppState) :
    (applyEditorOp (.addCharacter n d) st).data.characters =
      if jsTrim n != "" && jsTrim d != "" then
        st.data.characters ++
          [{ name := jsTrim n, description := jsTrim d,
             color := colorFor st.data.characters.length }]
      else st.data.characters := by
  by_cases h : (jsTrim n != "" && jsTrim d != "") = true
  · simp [applyEditorOp, handleAddCharacter, h]
  · simp [applyEditorOp, handleAddCharacter, h]

/-- An `addCharacter` editor action leaves the beat store unchanged. -/
theorem addCharacter_beats (n d : String) (st : AppState) :
    (applyEditorOp (.addCharacter n d) st).data.beats = st.data.beats := by
  by_cases h : (jsTrim n != "" && jsTrim d != "") = true
  · simp [applyEditorOp, handleAddCharacter, h]
  · simp [applyEditorOp, handleAddCharacter, h]

/-- Every editor action preserves the conversation step. -/
theorem applyEditorOp_step (op : EditorOp) (st : AppState) :
    (applyEditorOp op st).step = st.step := by
  cases op with
  | addBeat t =>
    by_cases h : (jsTrim t != "") = true
    · simp [applyEditorOp, handleAddBeat, h]
    · simp [applyEditorOp, handleAddBeat, h]
  | removeBeat i => rfl
  | addCharacter n d =>
    by_cases h : (jsTrim n != "" && jsTrim d != "") = true
    · simp [applyEditorOp, handleAddCharacter, h]
    · simp [applyEditorOp, handleAddCharacter, h]
  | removeCharacter i => rfl

/-- Each editor action's final character store is the old one followed by
the characters the action added, up to deleting some of the old ones: a
sublist relation that in particular preserves every surviving character's
record (hence its colour). -/
theorem applyEditorOp_chars_sublist (op : EditorOp) (st : AppState) :
    ((applyEditorOp op st).data.characters).Sublist
      (st.data.characters ++ charsAddedBy op st) := by
  unfold charsAddedBy
  cases op with
  | addBeat t =>
    rw [addBeat_chars, List.drop_length, List.append_nil]
  | removeBeat i =>
    have : (applyEditorOp (.removeBeat i) st).data.characters = st.data.characters := rfl
    rw [this, List.drop_length, List.append_nil]
  | addCharacter n d =>
    rw [addCharacter_chars]
    split
    · rw [List.drop_left]
    · rw [List.drop_length, List.append_nil]
  | removeCharacter i =>
    have he : (applyEditorOp (.removeCharacter i) st).data.characters =
        st.data.characters.eraseIdx i := removeCharacter_characters i st
    rw [he]
    have hd : (st.data.characters.eraseIdx i).drop st.data.characters.length = [] :=
      List.drop_eq_nil_of_le (List.length_eraseIdx_le _ _)
    rw [hd, List.append_nil]
    exact List.eraseIdx_sublist _ _

/-- C3, counterexample.  The colour of the k-th successfully added character
is NOT `palette[k mod |palette|]` when a removal intervenes: after adding a
character, removing it and adding another, the second add (k = 1) receives
`palette[0] = "#f44336"` — the character count at add time is 0 again — and
not `palette[1 mod 5] = "#4caf50"`. -/
theorem kth_add_color_claim_fails :
    (addedColors colorProbeOps initialState).length = 2
    ∧ (addedColors colorProbeOps initialState).getD 1 "" = "#f44336"
    ∧ characterColors.getD (1 % characterColors.length) "" = "#4caf50"
    ∧ (addedColors colorProbeOps initialState).getD 1 ""
        ≠ characterColors.getD (1 % characterColors.length) "" := by
  exact ⟨rfl, rfl, rfl, by decide⟩

/-- C3, amended.  Every successful character add — via the conversation's
`CHARACTER_DESCRIPTION` step or the out-of-band editor — receives the colour
`palette[c mod |palette|]` where `c` is the number of characters stored at
the moment of the add (so the k-th add gets `palette[k mod |palette|]`
exactly when no removal intervened), and a character's colour is never
changed after its creation: every run's final character store is a sublist
of the original characters followed by the added ones, each with its
creation-time record intact. -/
theorem character_color_assignment :
    (∀ (ops : List EditorOp) (st : AppState),
        addedColors ops st = (addSizes ops st).map colorFor)
    ∧ (∀ (ops : List EditorOp) (st : AppState),
        ((runEditorOps ops st).data.characters).Sublist
          (st.data.characters ++ addedChars ops st))
    ∧ (∀ (o : FetchOutcome) (st : AppState) (raw : String),
        st.step = STEPS "CHARACTER_DESCRIPTION" →
        jsTrim raw ≠ "" →
        jsToLower (jsTrim raw) ≠ "start over" →
        (handleSend o st raw).data.characters =
          st.data.characters ++
            [{ name := st.currentCharName
               description := jsTrim raw
               color := colorFor st.data.characters.length }]) := by
  refine ⟨?_, ?_, ?_⟩
  · intro ops
    induction ops with
    | nil => intro st; rfl
    | cons op ops ih =>
      intro st
      show (charsAddedBy op st).map Character.color ++ addedColors ops (applyEditorOp op st)
          = ((charsAddedBy op st).map (fun _ => st.data.characters.length) ++
              addSizes ops (applyEditorOp op st)).map colorFor
      rw [List.map_append, ih (applyEditorOp op st), List.map_map]
      congr 1
      unfold charsAddedBy
      cases op with
      | addBeat t => rw [addBeat_chars, List.drop_length]; rfl
      | removeBeat i => rw [show (applyEditorOp (.removeBeat i) st).data.characters
            = st.data.characters from rfl, List.drop_length]; rfl
      | addCharacter n d =>
        rw [addCharacter_chars]
        split
        · rw [List.drop_left]; rfl
        · rw [List.drop_length]; rfl
      | removeCharacter i =>
        rw [show (applyEditorOp (.removeCharacter i) st).data.characters
              = st.data.characters.eraseIdx i from removeCharacter_characters i st,
          List.drop_eq_nil_of_le (List.length_eraseIdx_le _ _)]
        rfl
  · intro ops
    induction ops with
    | nil =>
      intro st
      rw [show addedChars [] st = [] from rfl, List.append_nil]
      exact List.Sublist.refl _
    | cons op ops ih =>
      intro st
      have h1 : ((runEditorOps (op :: ops) st).data.characters).Sublist
          ((applyEditorOp op st).data.characters ++ addedChars ops (applyEditorOp op st)) :=
        ih (applyEditorOp op st)
      have h2 := (applyEditorOp_chars_sublist op st).append
        (List.Sublist.refl (addedChars ops (applyEditorOp op st)))
      have h3 := h1.trans h2
      rw [List.append_assoc] at h3
      exact h3
  · intro o st raw hstep hne hns
    rw [character_description_step o st raw hstep hne hns]

/-- Witness for `character_color_assignment`: the probe sequence, and an add
through the conversation at a state staged with the name `"Ana"`. -/
theorem character_color_assignment_witness :
    addedColors colorProbeOps initialState
        = (addSizes colorProbeOps initialState).map colorFor
    ∧ (handleSend .reject
        { initialState with step := STEPS "CHARACTER_DESCRIPTION", currentCharName := "Ana" }
        "A pilot").data.characters =
      [{ name := "Ana", description := jsTrim "A pilot", color := colorFor 0 }] := by
  refine ⟨character_color_assignment.1 colorProbeOps initialState, ?_⟩
  rw [character_color_assignment.2.2 .reject
    { initialState with step := STEPS "CHARACTER_DESCRIPTION", currentCharName := "Ana" }
    "A pilot" rfl (by decide) (by decide)]
  rfl

/-- The guarded add contributes its trimmed text to the added-beats list. -/
theorem beatsAddedTexts_addBeat (t : String) (ops : List EditorOp) :
    beatsAddedTexts (.addBeat t :: ops) =
      if jsTrim t != "" then jsTrim t :: beatsAddedTexts ops
      else beatsAddedTexts ops := by
  by_cases hg : jsTrim t = "" <;>
    simp [beatsAddedTexts, List.filterMap_cons, hg]

/-- Beat removals contribute nothing to the added-beats list. -/
theorem beatsAddedTexts_removeBeat (i : Nat) (ops : List EditorOp) :
    beatsAddedTexts (.removeBeat i :: ops) = beatsAddedTexts ops := by
  simp [beatsAddedTexts, List.filterMap_cons]

/-- Character adds contribute nothing to the added-beats list. -/
theorem beatsAddedTexts_addCharacter (n d : String) (ops : List EditorOp) :
    beatsAddedTexts (.addCharacter n d :: ops) = beatsAddedTexts ops := by
  simp [beatsAddedTexts, List.filterMap_cons]

/-- Character removals contribute nothing to the added-beats list. -/
theorem beatsAddedTexts_removeCharacter (i : Nat) (ops : List EditorOp) :
    beatsAddedTexts (.removeCharacter i :: ops) = beatsAddedTexts ops := by
  simp [beatsAddedTexts, List.filterMap_cons]

/-- C7.  Beat editing is a pure function of the beat list: a run of editor
actions produces `beatsAfter` of the initial beats — adds append their
trimmed text, removals erase exactly the indexed position — independent of
the conversation step, which every run preserves; `removeBeat` with an
out-of-range index is a complete no-op on the session state; and the final
beat list of any run is a subsequence of the initial beats followed by the
successfully added ones, in insertion order. -/
theorem beat_sequence_semantics :
    (∀ (ops : List EditorOp) (st : AppState),
        (runEditorOps ops st).data.beats = beatsAfter ops st.data.beats)
    ∧ (∀ (ops : List EditorOp) (st : AppState),
        (runEditorOps ops st).step = st.step)
    ∧ (∀ (st : AppState) (i : Nat),
        st.data.beats.length ≤ i → removeBeat i st = st)
    ∧ (∀ (ops : List EditorOp) (l : List String),
        (beatsAfter ops l).Sublist (l ++ beatsAddedTexts ops)) := by
  refine ⟨?_, ?_, ?_, ?_⟩
  · intro ops
    induction ops with
    | nil => intro st; rfl
    | cons op ops ih =>
      intro st
      show (runEditorOps ops (applyEditorOp op st)).data.beats
          = beatsAfter (op :: ops) st.data.beats
      rw [ih (applyEditorOp op st)]
      cases op with
      | addBeat t => rw [addBeat_beats]; rfl
      | removeBeat i =>
        rw [show (applyEditorOp (.removeBeat i) st).data.beats
              = st.data.beats.eraseIdx i from removeBeat_beats i st]
        rfl
      | addCharacter n d => rw [addCharacter_beats]; rfl
      | removeCharacter i => rfl
  · intro ops
    induction ops with
    | nil => intro st; rfl
    | cons op ops ih =>
      intro st
      show (runEditorOps ops (applyEditorOp op st)).step = st.step
      rw [ih (applyEditorOp op st), applyEditorOp_step]
  · intro st i h
    have hfw : filterWithIndex (fun k => k != i) 0 st.data.beats = st.data.beats := by
      rw [filterWithIndex_ne_zero, List.eraseIdx_of_length_le h]
    unfold removeBeat
    rw [hfw]
  · intro ops
    induction ops with
    | nil =>
      intro l
      rw [show beatsAddedTexts [] = [] from rfl, List.append_nil]
      exact List.Sublist.refl _
    | cons op ops ih =>
      intro l
      cases op with
      | addBeat t =>
        by_cases hg : (jsTrim t != "") = true
        · simp only [beatsAfter, if_pos hg, beatsAddedTexts_addBeat]
          have h := ih (l ++ [jsTrim t])
          rw [List.append_assoc] at h
          exact h
        · simp only [beatsAfter, if_neg hg, beatsAddedTexts_addBeat]
          exact ih l
      | removeBeat i =>
        simp only [beatsAfter, beatsAddedTexts_removeBeat]
        exact (ih (l.eraseIdx i)).trans
          ((List.eraseIdx_sublist l i).append (List.Sublist.refl _))
      | addCharacter n d =>
        simp only [beatsAfter, beatsAddedTexts_addCharacter]
        exact ih l
      | removeCharacter i =>
        simp only [beatsAfter, beatsAddedTexts_removeCharacter]
        exact ih l

/-- Witness for `beat_sequence_semantics` at the probe sequence and an
out-of-range removal index. -/
theorem beat_sequence_semantics_witness :
    (runEditorOps beatProbeOps initialState).data.beats
        = beatsAfter beatProbeOps initialState.data.beats
    ∧ (runEditorOps beatProbeOps initialState).step = initialState.step
    ∧ removeBeat 3 initialState = initialState
    ∧ (beatsAfter beatProbeOps []).Sublist ([] ++ beatsAddedTexts beatProbeOps) :=
  ⟨beat_sequence_semantics.1 beatProbeOps initialState,
   beat_sequence_semantics.2.1 beatProbeOps initialState,
   beat_sequence_semantics.2.2.1 initialState 3 (by decide),
   beat_sequence_semantics.2.2.2 beatProbeOps []⟩
